import Mathlib

/-!
Shallow embedding of the consensus-parameter resolution engine of
`src/chainparams.cpp` (Ycash): upgrade schedules, the founders-reward
address rotation (`CChainParams::GetFoundersRewardAddressAtHeight`), the
Equihash parameter resolution (`CChainParams::EquihashN` / `EquihashK`),
network selection (`Params` / `SelectParams`) and the regtest-only schedule
mutation (`UpdateNetworkUpgradeParameters`).

Pure functions of the source become Lean functions; the C++ `assert`
contract-violation aborts and out-of-range vector accesses are modelled by
`Option` (`none` = abort / undefined access); the process-global state
(`mainParams`, `testNetParams`, `regTestParams`, `pCurrentParams`) becomes an
explicit state record threaded through the stateful entry points.

Heights are C++ `int` values, modelled as unbounded `Int`; `size_t`
conversions in the source occur only on values that are non-negative at the
conversion point (guarded by the surrounding asserts / upgrade-activity
checks), so they are modelled by `Int.toNat`.
-/

namespace Ycash

/-- Modelled from the spec (§3, UpgradeIndex): the ordered enumeration of
upgrade identifiers `Consensus::UpgradeIndex` (declared in
`consensus/upgrades.h`, outside this translation unit); the order follows the
spec's deployment sequence base → testdummy → overwinter → sapling →
legacy-fork-marker (YCASH) → blossom → heartwood → canopy → NU5 → future. -/
inductive UpgradeIndex where
  | BASE_SPROUT
  | UPGRADE_TESTDUMMY
  | UPGRADE_OVERWINTER
  | UPGRADE_SAPLING
  | UPGRADE_YCASH
  | UPGRADE_BLOSSOM
  | UPGRADE_HEARTWOOD
  | UPGRADE_CANOPY
  | UPGRADE_NU5
  | UPGRADE_ZFUTURE
deriving DecidableEq, Repr

/-- Numeric position of an upgrade index in deployment order. -/
def UpgradeIndex.toNat : UpgradeIndex → Nat
  | .BASE_SPROUT => 0
  | .UPGRADE_TESTDUMMY => 1
  | .UPGRADE_OVERWINTER => 2
  | .UPGRADE_SAPLING => 3
  | .UPGRADE_YCASH => 4
  | .UPGRADE_BLOSSOM => 5
  | .UPGRADE_HEARTWOOD => 6
  | .UPGRADE_CANOPY => 7
  | .UPGRADE_NU5 => 8
  | .UPGRADE_ZFUTURE => 9

/-- Modelled from the spec: the number of upgrade slots
(`Consensus::MAX_NETWORK_UPGRADES`); the schedule tables in
`chainparams.cpp` populate exactly the ten indices above. -/
def MAX_NETWORK_UPGRADES : Nat := 10

/-- All upgrade indices in deployment order. -/
def UpgradeIndex.all : List UpgradeIndex :=
  [.BASE_SPROUT, .UPGRADE_TESTDUMMY, .UPGRADE_OVERWINTER, .UPGRADE_SAPLING,
   .UPGRADE_YCASH, .UPGRADE_BLOSSOM, .UPGRADE_HEARTWOOD, .UPGRADE_CANOPY,
   .UPGRADE_NU5, .UPGRADE_ZFUTURE]

/-- One entry of the upgrade schedule: `Consensus::NetworkUpgrade`
(protocol version and activation height), as populated by the
`CMainParams` / `CTestNetParams` / `CRegTestParams` constructors. -/
structure NetworkUpgrade where
  nProtocolVersion : Int
  nActivationHeight : Int
deriving DecidableEq, Repr

/-- Modelled from the spec (§3): the sentinel activation height meaning the
upgrade is always active; per the spec it "resolves to height 0". -/
def NetworkUpgrade.ALWAYS_ACTIVE : Int := 0

/-- Modelled from the spec (§3): the sentinel activation height meaning the
upgrade never activates (`Consensus::NetworkUpgrade::NO_ACTIVATION_HEIGHT`,
a negative sentinel integer distinct from every real height). -/
def NetworkUpgrade.NO_ACTIVATION_HEIGHT : Int := -1

/-- The subset of `Consensus::Params` that the resolution logic in
`chainparams.cpp` reads: the upgrade schedule, the network-wide Equihash
parameters, and the coinbase-shielding flag touched by `SelectParams`. -/
structure ConsensusParams where
  vUpgrades : UpgradeIndex → NetworkUpgrade
  nEquihashN : Nat
  nEquihashK : Nat
  fCoinbaseMustBeShielded : Bool

/-- Modelled from the spec (§4.1): `NetworkUpgradeActive` (defined in
`consensus/upgrades.cpp`, outside this translation unit): an upgrade is
active at a height exactly when its activation height is not the
never-activate sentinel and is ≤ the height. -/
def NetworkUpgradeActive (nHeight : Int) (c : ConsensusParams) (idx : UpgradeIndex) : Bool :=
  let a := (c.vUpgrades idx).nActivationHeight
  if a = NetworkUpgrade.NO_ACTIVATION_HEIGHT then false else decide (a ≤ nHeight)

/-- Modelled from the spec (§4.1, EpochResolver): `CurrentEpoch` (defined in
`consensus/upgrades.cpp`, outside this translation unit) returns the
highest-ordered upgrade index active at the height, with the always-active
base index as universal fallback. -/
def CurrentEpoch (nHeight : Int) (c : ConsensusParams) : UpgradeIndex :=
  UpgradeIndex.all.foldl
    (fun acc i => if NetworkUpgradeActive nHeight c i then i else acc)
    UpgradeIndex.BASE_SPROUT

/-- Per-epoch Equihash size parameters (`EquihashInfo` of
`crypto/equihash.h`): the `(N, K)` entry of the per-upgrade table. -/
structure EquihashInfo where
  N : Nat
  K : Nat
deriving DecidableEq, Repr

/-- Modelled from the spec (§4.2): the "inherit the network default"
sentinel `EquihashInfo::DEFAULT_PARAMS` (declared outside this translation
unit); only its distinguishability matters, its numeric value is the
sentinel used in the per-epoch table. -/
def EquihashInfo.DEFAULT_PARAMS : Nat := 0

/-- The members of `CChainParams` that the claims touch: the network id
string, the consensus parameters, the two founders-reward address lists and
the ZIP209 flag set by `SelectParams` in regtest mode. -/
structure CChainParams where
  strNetworkID : String
  consensus : ConsensusParams
  vFoundersRewardAddress : List String
  vYcashFoundersRewardAddress : List String
  fZIP209Enabled : Bool

/-- The zip208 height adjustment performed inline by
`CChainParams::GetFoundersRewardAddressAtHeight` (the source's own comment
names it `FounderAddressAdjustedHeight`): if the Blossom (rate-change)
upgrade is active at the height, the height is replaced by
`blossomActivationHeight + (nHeight - blossomActivationHeight) / ratio`
(C++ `int` division, i.e. truncation, hence `Int.tdiv`); otherwise the raw
height is kept.  `spacingQuot` stands for the global constant
`Consensus::BLOSSOM_POW_TARGET_SPACING_RATIO` (declared outside this
translation unit; per the spec, the integer ratio of the old to the new
target block spacing). -/
def FounderAddressAdjustedHeight (spacingQuot : Int) (c : ConsensusParams) (nHeight : Int) : Int :=
  if NetworkUpgradeActive nHeight c .UPGRADE_BLOSSOM then
    let blossomActivationHeight := (c.vUpgrades .UPGRADE_BLOSSOM).nActivationHeight
    blossomActivationHeight + (nHeight - blossomActivationHeight).tdiv spacingQuot
  else nHeight

/-- The pre-fork rotation interval
`(preBlossomMaxHeight + vFoundersRewardAddress.size()) / vFoundersRewardAddress.size()`
(`size_t` arithmetic; `preBlossomMaxHeight` is positive at the computation
point because the preceding assert has passed, so `Int.toNat` is the
value-preserving image of the `size_t` conversion). -/
def addressChangeInterval (lastFoundersRewardBlockHeight : Int) (p : CChainParams) : Nat :=
  (lastFoundersRewardBlockHeight.toNat + p.vFoundersRewardAddress.length) /
    p.vFoundersRewardAddress.length

/-- The pre-fork list index `nHeight / addressChangeInterval` computed by
`CChainParams::GetFoundersRewardAddressAtHeight` on the (possibly
Blossom-adjusted) height. -/
def foundersRewardIndex (spacingQuot lastFoundersRewardBlockHeight : Int)
    (p : CChainParams) (nHeight : Int) : Nat :=
  (FounderAddressAdjustedHeight spacingQuot p.consensus nHeight).toNat /
    addressChangeInterval lastFoundersRewardBlockHeight p

/-- Shallow embedding of `CChainParams::GetFoundersRewardAddressAtHeight`
(chainparams.cpp, lines 760–790).  The failed `assert` is modelled as
`none`; an out-of-range vector access is modelled by `List.get?`.
`zecToYec` stands for `KeyIO::ZecToYec` (key_io, outside this translation
unit; per the spec, the re-encoding of a legacy address into the current
network's address format), and `lastFoundersRewardBlockHeight` for
`consensus.GetLastFoundersRewardBlockHeight(0)` (outside this translation
unit; per the spec an opaque input: the last height eligible for legacy
rewards).  In the post-fork branch `nHeight - activation` is non-negative
because the YCASH upgrade is active at `nHeight`, so `Int.toNat` is the
value-preserving image of the `size_t` conversion. -/
def GetFoundersRewardAddressAtHeight (zecToYec : String → String)
    (spacingQuot lastFoundersRewardBlockHeight : Int)
    (p : CChainParams) (nHeight : Int) : Option String :=
  if !(NetworkUpgradeActive nHeight p.consensus .UPGRADE_YCASH) then
    -- Pre YCash
    let preBlossomMaxHeight : Int := lastFoundersRewardBlockHeight
    let nHeight' : Int := FounderAddressAdjustedHeight spacingQuot p.consensus nHeight
    if 0 < nHeight' ∧ nHeight' ≤ preBlossomMaxHeight then
      (p.vFoundersRewardAddress.get?
        (nHeight'.toNat / addressChangeInterval preBlossomMaxHeight p)).map zecToYec
    else none
  else
    -- Ycash
    let addressChangeIntervalPost : Nat := 17917
    let i : Nat :=
      (nHeight - (p.consensus.vUpgrades .UPGRADE_YCASH).nActivationHeight).toNat /
        addressChangeIntervalPost
    p.vYcashFoundersRewardAddress.get? (i % p.vYcashFoundersRewardAddress.length)

/-- Shallow embedding of `CChainParams::EquihashN` (chainparams.cpp):
regtest returns the network-wide `nEquihashN` directly; otherwise the
per-epoch table entry for `CurrentEpoch(nHeight)` is used, with the
network default substituted when the entry is the inherit sentinel.
`equihashUpgradeInfo` stands for the global table `EquihashUpgradeInfo`
(crypto/equihash, outside this translation unit). -/
def EquihashN (p : CChainParams) (equihashUpgradeInfo : UpgradeIndex → EquihashInfo)
    (nHeight : Int) : Nat :=
  if p.strNetworkID = "regtest" then p.consensus.nEquihashN
  else
    let n := (equihashUpgradeInfo (CurrentEpoch nHeight p.consensus)).N
    if n = EquihashInfo.DEFAULT_PARAMS then p.consensus.nEquihashN else n

/-- Shallow embedding of `CChainParams::EquihashK` (chainparams.cpp),
analogous to `EquihashN`. -/
def EquihashK (p : CChainParams) (equihashUpgradeInfo : UpgradeIndex → EquihashInfo)
    (nHeight : Int) : Nat :=
  if p.strNetworkID = "regtest" then p.consensus.nEquihashK
  else
    let k := (equihashUpgradeInfo (CurrentEpoch nHeight p.consensus)).K
    if k = EquihashInfo.DEFAULT_PARAMS then p.consensus.nEquihashK else k

/-- Shallow embedding of `CRegTestParams::UpdateNetworkUpgradeParameters`
(chainparams.cpp, lines 692–696): asserts the index is strictly between the
immutable base index and `MAX_NETWORK_UPGRADES` (failure modelled as
`none`), then overwrites that entry's activation height. -/
def CChainParams.UpdateNetworkUpgradeParameters (p : CChainParams)
    (idx : UpgradeIndex) (nActivationHeight : Int) : Option CChainParams :=
  if UpgradeIndex.BASE_SPROUT.toNat < idx.toNat ∧ idx.toNat < MAX_NETWORK_UPGRADES then
    some { p with consensus :=
      { p.consensus with vUpgrades := fun j =>
          if j = idx then
            { p.consensus.vUpgrades j with nActivationHeight := nActivationHeight }
          else p.consensus.vUpgrades j } }
  else none

/-- `CRegTestParams::SetRegTestZIP209Enabled` (chainparams.cpp):
sets the ZIP209 flag. -/
def CChainParams.SetRegTestZIP209Enabled (p : CChainParams) : CChainParams :=
  { p with fZIP209Enabled := true }

/-- Modelled from the spec (§6, debug-only mutators):
`CRegTestParams::SetRegTestCoinbaseMustBeShielded` (declared outside this
translation unit), called by `SelectParams` under the
`-regtestshieldcoinbase` flag; it enforces the coinbase consensus rule by
setting `fCoinbaseMustBeShielded`. -/
def CChainParams.SetRegTestCoinbaseMustBeShielded (p : CChainParams) : CChainParams :=
  { p with consensus := { p.consensus with fCoinbaseMustBeShielded := true } }

/-- Which of the three static parameter objects a `CChainParams&` reference
designates. -/
inductive BaseChain where
  | MAIN
  | TESTNET
  | REGTEST
deriving DecidableEq, Repr

/-- Modelled from the spec (§4.5): the network name constant
`CBaseChainParams::MAIN` (declared outside this translation unit). -/
def CBaseChainParams.MAIN : String := "main"

/-- Modelled from the spec (§4.5): the network name constant
`CBaseChainParams::TESTNET` (declared outside this translation unit). -/
def CBaseChainParams.TESTNET : String := "test"

/-- Modelled from the spec (§4.5): the network name constant
`CBaseChainParams::REGTEST` (declared outside this translation unit). -/
def CBaseChainParams.REGTEST : String := "regtest"

/-- The process-global state of chainparams.cpp: the three static parameter
objects (`mainParams`, `testNetParams`, `regTestParams`) and the
process-wide current pointer `pCurrentParams` (`none` = null). -/
structure ChainParamsState where
  mainParams : CChainParams
  testNetParams : CChainParams
  regTestParams : CChainParams
  pCurrentParams : Option BaseChain

/-- The parameter object a `BaseChain` reference designates in a state. -/
def ChainParamsState.get (st : ChainParamsState) : BaseChain → CChainParams
  | .MAIN => st.mainParams
  | .TESTNET => st.testNetParams
  | .REGTEST => st.regTestParams

/-- Shallow embedding of `Params(const std::string& chain)`
(chainparams.cpp, lines 729–739): returns (a reference to) the matching
static parameter object, or throws "Unknown chain" for any other name
(the thrown `std::runtime_error` is modelled by `Except.error`). -/
def Params (chain : String) : Except String BaseChain :=
  if chain = CBaseChainParams.MAIN then Except.ok BaseChain.MAIN
  else if chain = CBaseChainParams.TESTNET then Except.ok BaseChain.TESTNET
  else if chain = CBaseChainParams.REGTEST then Except.ok BaseChain.REGTEST
  else Except.error ("Params: Unknown chain " ++ chain ++ ".")

/-- Shallow embedding of `SelectParams(const std::string& network)`
(chainparams.cpp, lines 741–755).  The initial `SelectBaseParams(network)`
call (chainparamsbase, outside this translation unit) throws for exactly
the same unknown names as `Params`, before the current pointer is touched;
the model realises that failure through the `Params` call.  On success the
process-wide pointer is bound and, in regtest mode, the two `mapArgs`
debug flags are applied to the regtest object. -/
def SelectParams (st : ChainParamsState) (network : String) (mapArgs : List String) :
    Except String ChainParamsState :=
  match Params network with
  | Except.error e => Except.error e
  | Except.ok chain =>
    let st1 := { st with pCurrentParams := some chain }
    let st2 :=
      if network = CBaseChainParams.REGTEST && mapArgs.contains "-regtestshieldcoinbase" then
        { st1 with regTestParams := st1.regTestParams.SetRegTestCoinbaseMustBeShielded }
      else st1
    let st3 :=
      if network = CBaseChainParams.REGTEST && mapArgs.contains "-developersetpoolsizezero" then
        { st2 with regTestParams := st2.regTestParams.SetRegTestZIP209Enabled }
      else st2
    Except.ok st3

/-- Shallow embedding of the free function `UpdateNetworkUpgradeParameters`
(chainparams.cpp, lines 832–835): it forwards unconditionally to
`regTestParams.UpdateNetworkUpgradeParameters`, whatever network is
currently selected. -/
def UpdateNetworkUpgradeParameters (st : ChainParamsState)
    (idx : UpgradeIndex) (nActivationHeight : Int) : Option ChainParamsState :=
  (st.regTestParams.UpdateNetworkUpgradeParameters idx nActivationHeight).map
    (fun r => { st with regTestParams := r })

/-- The `vFoundersRewardAddress` literal of the main constructor (chainparams.cpp), 48 entries. -/
def mainFoundersRewardAddressList : List String :=
  ["t3Vz22vK5z2LcKEdg16Yv4FFneEL1zg9ojd", "t3cL9AucCajm3HXDhb5jBnJK2vapVoXsop3", "t3fqvkzrrNaMcamkQMwAyHRjfDdM2xQvDTR", "t3TgZ9ZT2CTSK44AnUPi6qeNaHa2eC7pUyF",
   "t3SpkcPQPfuRYHsP5vz3Pv86PgKo5m9KVmx", "t3Xt4oQMRPagwbpQqkgAViQgtST4VoSWR6S", "t3ayBkZ4w6kKXynwoHZFUSSgXRKtogTXNgb", "t3adJBQuaa21u7NxbR8YMzp3km3TbSZ4MGB",
   "t3K4aLYagSSBySdrfAGGeUd5H9z5Qvz88t2", "t3RYnsc5nhEvKiva3ZPhfRSk7eyh1CrA6Rk", "t3Ut4KUq2ZSMTPNE67pBU5LqYCi2q36KpXQ", "t3ZnCNAvgu6CSyHm1vWtrx3aiN98dSAGpnD",
   "t3fB9cB3eSYim64BS9xfwAHQUKLgQQroBDG", "t3cwZfKNNj2vXMAHBQeewm6pXhKFdhk18kD", "t3YcoujXfspWy7rbNUsGKxFEWZqNstGpeG4", "t3bLvCLigc6rbNrUTS5NwkgyVrZcZumTRa4",
   "t3VvHWa7r3oy67YtU4LZKGCWa2J6eGHvShi", "t3eF9X6X2dSo7MCvTjfZEzwWrVzquxRLNeY", "t3esCNwwmcyc8i9qQfyTbYhTqmYXZ9AwK3X", "t3M4jN7hYE2e27yLsuQPPjuVek81WV3VbBj",
   "t3gGWxdC67CYNoBbPjNvrrWLAWxPqZLxrVY", "t3LTWeoxeWPbmdkUD3NWBquk4WkazhFBmvU", "t3P5KKX97gXYFSaSjJPiruQEX84yF5z3Tjq", "t3f3T3nCWsEpzmD35VK62JgQfFig74dV8C9",
   "t3Rqonuzz7afkF7156ZA4vi4iimRSEn41hj", "t3fJZ5jYsyxDtvNrWBeoMbvJaQCj4JJgbgX", "t3Pnbg7XjP7FGPBUuz75H65aczphHgkpoJW", "t3WeKQDxCijL5X7rwFem1MTL9ZwVJkUFhpF",
   "t3Y9FNi26J7UtAUC4moaETLbMo8KS1Be6ME", "t3aNRLLsL2y8xcjPheZZwFy3Pcv7CsTwBec", "t3gQDEavk5VzAAHK8TrQu2BWDLxEiF1unBm", "t3Rbykhx1TUFrgXrmBYrAJe2STxRKFL7G9r",
   "t3aaW4aTdP7a8d1VTE1Bod2yhbeggHgMajR", "t3YEiAa6uEjXwFL2v5ztU1fn3yKgzMQqNyo", "t3g1yUUwt2PbmDvMDevTCPWUcbDatL2iQGP", "t3dPWnep6YqGPuY1CecgbeZrY9iUwH8Yd4z",
   "t3QRZXHDPh2hwU46iQs2776kRuuWfwFp4dV", "t3enhACRxi1ZD7e8ePomVGKn7wp7N9fFJ3r", "t3PkLgT71TnF112nSwBToXsD77yNbx2gJJY", "t3LQtHUDoe7ZhhvddRv4vnaoNAhCr2f4oFN",
   "t3fNcdBUbycvbCtsD2n9q3LuxG7jVPvFB8L", "t3dKojUU2EMjs28nHV84TvkVEUDu1M1FaEx", "t3aKH6NiWN1ofGd8c19rZiqgYpkJ3n679ME", "t3MEXDF9Wsi63KwpPuQdD6by32Mw2bNTbEa",
   "t3WDhPfik343yNmPTqtkZAoQZeqA83K7Y3f", "t3PSn5TbMMAEw7Eu36DYctFezRzpX1hzf3M", "t3R3Y5vnBLrEn8L6wFjPjBLnxSUQsKnmFpv", "t3Pcm737EsVkGTbhsu2NekKtJeG92mvYyoN"]

/-- The `vYcashFoundersRewardAddress` literal of the main constructor (chainparams.cpp), 48 entries. -/
def mainYcashFoundersRewardAddressList : List String :=
  ["s1hfWJ4ej1H3s8XCUb7YnrU68K64AsGVUHE", "s1iZaRoYtafWspcieQxg6hhaU4DfZyAdGQf", "s1RSr6xec6Cc98emM4cdq45rkVekHMjRWbw", "s1RsqYeweoKVepivLPLsiajE8c6khu5UKhS",
   "s1MNmqMWyV4nMWE4oDb1nqJs7haJrv9QTKp", "s1RP95ESdcu33gMtU7deLW9TP6yDZncjRQ7", "s1h8W7xQbiU8Zxu21Zcg82NByjkWMcEbNtX", "s1PVcdfcrJrDCmXxgSTGuKGSNhwSYZ51XKJ",
   "s1PkV5nFkgQN4EGuTtEcmm4CxeBVx2L5HHv", "s1jiVSTfMaFUrWnf17BGc416oomHbut58Ue", "s1Zr2KdHtnK2zNSMQDrAVv3KU51mgDbqgwe", "s1QkY6tmBHPZacXPMPmsjP37Kxgs5mcgcAn",
   "s1Xu76ZmGDENdLFAiuj5iMdp1RA4hWSNieq", "s1bdiEnfBYaEgrt2TmnY3ZHmdhg5AEw9tjN", "s1asM9Ui4U13GjmLoAhvfK6J5QihemQR9Pk", "s1QhTSXYu4K1cTNomN27wiep9WC9HBZjrxJ",
   "s1j3Ef2qCNjwRAM18BgwsPAZFzZ475BWM5S", "s1QZibiN7iqVCfVBES9Gn7e3o5psxRKtpwE", "s1fdiDZHkzp8K8UajpVwYUdyFeb6jNVyoKv", "s1iMShbVRH1eCGxK2ZoLMDn5o9NcwXkNPVF",
   "s1YtUXAMt8m31gGeP5m3Y53B1wrMk3FFigJ", "s1gy9aqWUihGRjZa3vqc7136vqTGNAWyefF", "s1NNozrex18HZqcHCGpGoSRkj8hqHLEPaVC", "s1NYNDdqthMf7D7sZbnLGuecDtXb48Ne2bf",
   "s1P7UJ9Wp7jstJPUbvMSRVFjN8tfQueQSK3", "s1RDeyH7xg8y9veb9XfAmtKzrMTjFS14c4T", "s1NmH6MNXU19xoHjUfpQpb4dEMSy1Wbs9tC", "s1UnFL2yrZapMKmB5EqaBKpogZmnXLUgELB",
   "s1XT3W1sLFdgmGoecQbPdJbjUDMurW8CFA2", "s1gyVwgangQxLCAcm8VS4SWqXDqeohNg7hd", "s1k3eWbqnbVM1xtZEDc81UbFdwXgXNnbtdH", "s1Wr6eAh3gZWwBVRZcND9YCzdNfR9cARkD4",
   "s1dtjp2KHWZ6qF2LvgNiEwjJV2dA2c6y75V", "s1cjQf9kmjQdTmnn6mbBaesHMNLt2JqjyEV", "s1URQeusSoi7fkgyAwCshFzobUzmLGH4U3b", "s1Z9YqM2h48HUf8kcSHS89q4Z6Bg9xua3kA",
   "s1TLmZzMDsDhYfh4vpY7NpRB4kao2UEEqKu", "s1QEWvfC1uifDfi78NY7cArw9xLEja7QAZR", "s1b4kfW9WMUtd2H7X4C64KLzqPWdMPXRMtS", "s1cHTXzCXhKYAX7sY7D8YGcmopjN8Yngoju",
   "s1QKjMQDeF9FLVo2sL8m11VC4ZA18s61s2K", "s1gV8D561ZpmaZVxG176cQM1bMFMnHLvujE", "s1caQmLCYVDZegcMoBckHD2RXjBh7ikpj2j", "s1Y63AsWsJTk5t5nSZfaFcFWmtfnFUUAu2V",
   "s1Y2U4GsfZdP9LAbC97GAmSdihBX5FU9gQn", "s1bPYWZMXzyN2ML2vswDiCckmas775QFs2Q", "s1erG25RcWYCiBPbT7khTU4ULhzm8jJZ7pv", "s1kYEiPdFZ3oV389q2MmSYY932qPF1ygVtx"]

/-- The `vFoundersRewardAddress` literal of the testNet constructor (chainparams.cpp), 48 entries. -/
def testNetFoundersRewardAddressList : List String :=
  ["t2UNzUUx8mWBCRYPRezvA363EYXyEpHokyi", "t2N9PH9Wk9xjqYg9iin1Ua3aekJqfAtE543", "t2NGQjYMQhFndDHguvUw4wZdNdsssA6K7x2", "t2ENg7hHVqqs9JwU5cgjvSbxnT2a9USNfhy",
   "t2BkYdVCHzvTJJUTx4yZB8qeegD8QsPx8bo", "t2J8q1xH1EuigJ52MfExyyjYtN3VgvshKDf", "t2Crq9mydTm37kZokC68HzT6yez3t2FBnFj", "t2EaMPUiQ1kthqcP5UEkF42CAFKJqXCkXC9",
   "t2F9dtQc63JDDyrhnfpzvVYTJcr57MkqA12", "t2LPirmnfYSZc481GgZBa6xUGcoovfytBnC", "t26xfxoSw2UV9Pe5o3C8V4YybQD4SESfxtp", "t2D3k4fNdErd66YxtvXEdft9xuLoKD7CcVo",
   "t2DWYBkxKNivdmsMiivNJzutaQGqmoRjRnL", "t2C3kFF9iQRxfc4B9zgbWo4dQLLqzqjpuGQ", "t2MnT5tzu9HSKcppRyUNwoTp8MUueuSGNaB", "t2AREsWdoW1F8EQYsScsjkgqobmgrkKeUkK",
   "t2Vf4wKcJ3ZFtLj4jezUUKkwYR92BLHn5UT", "t2K3fdViH6R5tRuXLphKyoYXyZhyWGghDNY", "t2VEn3KiKyHSGyzd3nDw6ESWtaCQHwuv9WC", "t2F8XouqdNMq6zzEvxQXHV1TjwZRHwRg8gC",
   "t2BS7Mrbaef3fA4xrmkvDisFVXVrRBnZ6Qj", "t2FuSwoLCdBVPwdZuYoHrEzxAb9qy4qjbnL", "t2SX3U8NtrT6gz5Db1AtQCSGjrpptr8JC6h", "t2V51gZNSoJ5kRL74bf9YTtbZuv8Fcqx2FH",
   "t2FyTsLjjdm4jeVwir4xzj7FAkUidbr1b4R", "t2EYbGLekmpqHyn8UBF6kqpahrYm7D6N1Le", "t2NQTrStZHtJECNFT3dUBLYA9AErxPCmkka", "t2GSWZZJzoesYxfPTWXkFn5UaxjiYxGBU2a",
   "t2RpffkzyLRevGM3w9aWdqMX6bd8uuAK3vn", "t2JzjoQqnuXtTGSN7k7yk5keURBGvYofh1d", "t2AEefc72ieTnsXKmgK2bZNckiwvZe3oPNL", "t2NNs3ZGZFsNj2wvmVd8BSwSfvETgiLrD8J",
   "t2ECCQPVcxUCSSQopdNquguEPE14HsVfcUn", "t2JabDUkG8TaqVKYfqDJ3rqkVdHKp6hwXvG", "t2FGzW5Zdc8Cy98ZKmRygsVGi6oKcmYir9n", "t2DUD8a21FtEFn42oVLp5NGbogY13uyjy9t",
   "t2UjVSd3zheHPgAkuX8WQW2CiC9xHQ8EvWp", "t2TBUAhELyHUn8i6SXYsXz5Lmy7kDzA1uT5", "t2Tz3uCyhP6eizUWDc3bGH7XUC9GQsEyQNc", "t2NysJSZtLwMLWEJ6MH3BsxRh6h27mNcsSy",
   "t2KXJVVyyrjVxxSeazbY9ksGyft4qsXUNm9", "t2J9YYtH31cveiLZzjaE4AcuwVho6qjTNzp", "t2QgvW4sP9zaGpPMH1GRzy7cpydmuRfB4AZ", "t2NDTJP9MosKpyFPHJmfjc5pGCvAU58XGa4",
   "t29pHDBWq7qN4EjwSEHg8wEqYe9pkmVrtRP", "t2Ez9KM8VJLuArcxuEkNRAkhNvidKkzXcjJ", "t2D5y7J5fpXajLbGrMBQkFg2mFN8fo3n8cX", "t2UV2wr1PTaUiybpkV3FdSdGxUJeZdZztyt"]

/-- The `vYcashFoundersRewardAddress` literal of the testNet constructor (chainparams.cpp), 48 entries. -/
def testNetYcashFoundersRewardAddressList : List String :=
  ["smDw2LWkeuJ1NGBDDZvdNbzY8A9D1mkkDZm", "smDxM6WPpz3HcK6m9cCnhQkBXMLnUf3cryA", "smEKdQPcZHYTmcTbVkqfWryRbEZWMrapjMo", "smEVfJmuGErW6ZM3XSNwbJR6cPU3iPABAqY",
   "smEkWMsbV1CBZosu9wtq69f2vNXBT1owNKe", "smFd3Dh5MjEttRHd9S8kx153Vzesefzjc2d", "smGBXB9SrjnEDf7ASQxvnujBRc1qBb58o5q", "smGLTYjSriA3n8EMf4JTiHLGUCzUYjau3WV",
   "smGVF2kDywxhjfzBqoFDE1AyXZEafTLSjbH", "smGVrxUHUzd2gaURPw2ASoE3L5WMFcxJcp1", "smHTCd59Q9pFzrzA73f6het1ozDzeQaA8E3", "smHy6JaGM9gkaGBJ4DF4p5FbFvoUbpAusWd",
   "smJ1fpQdKNuchkxuVUMBkcCWoBcWFmyDAyZ", "smJ2j3Gea5XH7ERpyYzvo6YQKaoYfzkMUS3", "smJ8gtE5EX5oFSp4c5cCDpxoajXTQu73VSC", "smJyGxvwpCxPaFJM6TwZ6cwT1qz5PMPPBeL",
   "smKEt1iVgCDY9V4915HnGpFK3zyTPyQixMa", "smKXxXsNLUVE8Qro6R9EyaEZmvgxqjbsFX9", "smLTH7FEiXUVpWjhoL91ToMoSZPU8xAvEh9", "smLo65rNyiEYiVHxWZHNNP9QU1HsQu3QX7b",
   "smMDUN36MqFE4thY54CQnWBpU4ePuayF9TV", "smMWmoipQ7YVuRAJaQHKqhHbbTg28mS6ET5", "smMtCCZsR3s7ZiEYskFietNPfSb1eVHNoZi", "smMuh9QVkpQg93Gb54ucaVykbk9FgjZBN3D",
   "smNM44GrsbMWHQRhhayqieCadzURNDLkxkW", "smNhJLQs3LmHWtVscrnJmrLhhjPcDD3unJZ", "smPHxC1438rANivn1omntbRF5Nf2wSZfFhs", "smSAidYKoFY2fmi2efcoJPSeBpdVC2vyHvj",
   "smShCYXefsx8RcnW2b7duPKBcD5TXWY5K2A", "smTRxVMtveLrdzVb1B9rLKfDZ3Qp8kAna7r", "smTnar3ernxTG5voae2bUC185EicBdSKVux", "smUmPeP8VwuPsNTcJcB7YZY1b1HJJsJfkYp",
   "smVSGTzPP4dbj3HXRR84WoBFWw4EVuuyVi2", "smW8AA9LAKGMj4EXxNtfJQFLFaiuzTyGwYa", "smWAgHkGiQ1fZHF9ZBjYzKS7ZX8JtjvWbaU", "smX1HT3n9mtPGeK7qMBETCEGL5UG8eC8nmy",
   "smX3udkLyb3qZ2z2muEinbvNuSi5M2JiiE5", "smXEcB2QZaZgevkB7CS1Tz2BZNQ9cnNwXBj", "smXddMXWZvpRDq4FjuTGxLWYTtwbNwc36g5", "smXfPS6G7aiVECG8qFvZc9oFe1bzEvCKECG",
   "smXxQi63m9x2WfhdBYogWdKzavVpbnnGyJq", "smZ53EtRafyjGZyjiNDb1FiGbwXbtE3aqTB", "smZJPM9KsKAdfotD6Woh2nb8wLedvhf4Nw5", "smZyciv3CGZLAFU8d2yKff33FU8f2nek5yx",
   "smZzRpCLENnxN5JgMHaKtMruTCi7jsa7Tak", "smaWKSqvUJvajRquGbaHBdNbL78fDf6hdwE", "smazMQ9G7NLJXAzX4ZMKc8x6DigyeoEucgk", "smbTaZmsKNEVstoQVyZcJAMJExiytfnwaMU"]

/-- The `vFoundersRewardAddress` literal of the regTest constructor (chainparams.cpp), single entry. -/
def regTestFoundersRewardAddressList : List String :=
  ["t2FwcEhFdNXuFMv1tcYwaBJtYVtMj8b1uTg"]

/-- The `vYcashFoundersRewardAddress` literal of the regTest constructor (chainparams.cpp), 48 entries. -/
def regTestYcashFoundersRewardAddressList : List String :=
  ["smDw2LWkeuJ1NGBDDZvdNbzY8A9D1mkkDZm", "smDxM6WPpz3HcK6m9cCnhQkBXMLnUf3cryA", "smEKdQPcZHYTmcTbVkqfWryRbEZWMrapjMo", "smEVfJmuGErW6ZM3XSNwbJR6cPU3iPABAqY",
   "smEkWMsbV1CBZosu9wtq69f2vNXBT1owNKe", "smFd3Dh5MjEttRHd9S8kx153Vzesefzjc2d", "smGBXB9SrjnEDf7ASQxvnujBRc1qBb58o5q", "smGLTYjSriA3n8EMf4JTiHLGUCzUYjau3WV",
   "smGVF2kDywxhjfzBqoFDE1AyXZEafTLSjbH", "smGVrxUHUzd2gaURPw2ASoE3L5WMFcxJcp1", "smHTCd59Q9pFzrzA73f6het1ozDzeQaA8E3", "smHy6JaGM9gkaGBJ4DF4p5FbFvoUbpAusWd",
   "smJ1fpQdKNuchkxuVUMBkcCWoBcWFmyDAyZ", "smJ2j3Gea5XH7ERpyYzvo6YQKaoYfzkMUS3", "smJ8gtE5EX5oFSp4c5cCDpxoajXTQu73VSC", "smJyGxvwpCxPaFJM6TwZ6cwT1qz5PMPPBeL",
   "smKEt1iVgCDY9V4915HnGpFK3zyTPyQixMa", "smKXxXsNLUVE8Qro6R9EyaEZmvgxqjbsFX9", "smLTH7FEiXUVpWjhoL91ToMoSZPU8xAvEh9", "smLo65rNyiEYiVHxWZHNNP9QU1HsQu3QX7b",
   "smMDUN36MqFE4thY54CQnWBpU4ePuayF9TV", "smMWmoipQ7YVuRAJaQHKqhHbbTg28mS6ET5", "smMtCCZsR3s7ZiEYskFietNPfSb1eVHNoZi", "smMuh9QVkpQg93Gb54ucaVykbk9FgjZBN3D",
   "smNM44GrsbMWHQRhhayqieCadzURNDLkxkW", "smNhJLQs3LmHWtVscrnJmrLhhjPcDD3unJZ", "smPHxC1438rANivn1omntbRF5Nf2wSZfFhs", "smSAidYKoFY2fmi2efcoJPSeBpdVC2vyHvj",
   "smShCYXefsx8RcnW2b7duPKBcD5TXWY5K2A", "smTRxVMtveLrdzVb1B9rLKfDZ3Qp8kAna7r", "smTnar3ernxTG5voae2bUC185EicBdSKVux", "smUmPeP8VwuPsNTcJcB7YZY1b1HJJsJfkYp",
   "smVSGTzPP4dbj3HXRR84WoBFWw4EVuuyVi2", "smW8AA9LAKGMj4EXxNtfJQFLFaiuzTyGwYa", "smWAgHkGiQ1fZHF9ZBjYzKS7ZX8JtjvWbaU", "smX1HT3n9mtPGeK7qMBETCEGL5UG8eC8nmy",
   "smX3udkLyb3qZ2z2muEinbvNuSi5M2JiiE5", "smXEcB2QZaZgevkB7CS1Tz2BZNQ9cnNwXBj", "smXddMXWZvpRDq4FjuTGxLWYTtwbNwc36g5", "smXfPS6G7aiVECG8qFvZc9oFe1bzEvCKECG",
   "smXxQi63m9x2WfhdBYogWdKzavVpbnnGyJq", "smZ53EtRafyjGZyjiNDb1FiGbwXbtE3aqTB", "smZJPM9KsKAdfotD6Woh2nb8wLedvhf4Nw5", "smZyciv3CGZLAFU8d2yKff33FU8f2nek5yx",
   "smZzRpCLENnxN5JgMHaKtMruTCi7jsa7Tak", "smaWKSqvUJvajRquGbaHBdNbL78fDf6hdwE", "smazMQ9G7NLJXAzX4ZMKc8x6DigyeoEucgk", "smbTaZmsKNEVstoQVyZcJAMJExiytfnwaMU"]

/-- The upgrade schedule populated by the `CMainParams` constructor
(chainparams.cpp, lines 112–141). -/
def mainUpgrades : UpgradeIndex → NetworkUpgrade
  | .BASE_SPROUT => ⟨170002, NetworkUpgrade.ALWAYS_ACTIVE⟩
  | .UPGRADE_TESTDUMMY => ⟨170002, NetworkUpgrade.NO_ACTIVATION_HEIGHT⟩
  | .UPGRADE_OVERWINTER => ⟨170005, 347500⟩
  | .UPGRADE_SAPLING => ⟨170007, 419200⟩
  | .UPGRADE_YCASH => ⟨270007, 570000⟩
  | .UPGRADE_BLOSSOM => ⟨270009, 1100000⟩
  | .UPGRADE_HEARTWOOD => ⟨270011, 1100003⟩
  | .UPGRADE_CANOPY => ⟨270013, 1100006⟩
  | .UPGRADE_NU5 => ⟨270015, NetworkUpgrade.NO_ACTIVATION_HEIGHT⟩
  | .UPGRADE_ZFUTURE => ⟨0x7FFFFFFF, NetworkUpgrade.NO_ACTIVATION_HEIGHT⟩

/-- The upgrade schedule populated by the `CTestNetParams` constructor
(chainparams.cpp, lines 361–396). -/
def testNetUpgrades : UpgradeIndex → NetworkUpgrade
  | .BASE_SPROUT => ⟨170002, NetworkUpgrade.ALWAYS_ACTIVE⟩
  | .UPGRADE_TESTDUMMY => ⟨170002, NetworkUpgrade.NO_ACTIVATION_HEIGHT⟩
  | .UPGRADE_OVERWINTER => ⟨170003, 207500⟩
  | .UPGRADE_SAPLING => ⟨170007, 280000⟩
  | .UPGRADE_YCASH => ⟨270007, 510248⟩
  | .UPGRADE_BLOSSOM => ⟨270008, 661610⟩
  | .UPGRADE_HEARTWOOD => ⟨270010, 661622⟩
  | .UPGRADE_CANOPY => ⟨270012, 661634⟩
  | .UPGRADE_NU5 => ⟨270014, NetworkUpgrade.NO_ACTIVATION_HEIGHT⟩
  | .UPGRADE_ZFUTURE => ⟨0x7FFFFFFF, NetworkUpgrade.NO_ACTIVATION_HEIGHT⟩

/-- The upgrade schedule populated by the `CRegTestParams` constructor
(chainparams.cpp, lines 567–596): only the base upgrade is active, every
other upgrade has no activation height until a test overrides it. -/
def regTestUpgrades : UpgradeIndex → NetworkUpgrade
  | .BASE_SPROUT => ⟨170002, NetworkUpgrade.ALWAYS_ACTIVE⟩
  | .UPGRADE_TESTDUMMY => ⟨170002, NetworkUpgrade.NO_ACTIVATION_HEIGHT⟩
  | .UPGRADE_OVERWINTER => ⟨170003, NetworkUpgrade.NO_ACTIVATION_HEIGHT⟩
  | .UPGRADE_SAPLING => ⟨170006, NetworkUpgrade.NO_ACTIVATION_HEIGHT⟩
  | .UPGRADE_YCASH => ⟨270007, NetworkUpgrade.NO_ACTIVATION_HEIGHT⟩
  | .UPGRADE_BLOSSOM => ⟨270008, NetworkUpgrade.NO_ACTIVATION_HEIGHT⟩
  | .UPGRADE_HEARTWOOD => ⟨270010, NetworkUpgrade.NO_ACTIVATION_HEIGHT⟩
  | .UPGRADE_CANOPY => ⟨270012, NetworkUpgrade.NO_ACTIVATION_HEIGHT⟩
  | .UPGRADE_NU5 => ⟨270014, NetworkUpgrade.NO_ACTIVATION_HEIGHT⟩
  | .UPGRADE_ZFUTURE => ⟨0x7FFFFFFF, NetworkUpgrade.NO_ACTIVATION_HEIGHT⟩

/-- The static `mainParams` object (the members this embedding models, as
set by the `CMainParams` constructor: network id "main", Equihash
N = 200 / K = 9, shielded coinbase required, ZIP209 enabled, and the two
founders address lists). -/
def mainParams : CChainParams :=
  { strNetworkID := "main"
    consensus :=
      { vUpgrades := mainUpgrades
        nEquihashN := 200
        nEquihashK := 9
        fCoinbaseMustBeShielded := true }
    vFoundersRewardAddress := mainFoundersRewardAddressList
    vYcashFoundersRewardAddress := mainYcashFoundersRewardAddressList
    fZIP209Enabled := true }

/-- The static `testNetParams` object (members as set by the
`CTestNetParams` constructor: network id "test", Equihash N = 200 / K = 9,
shielded coinbase required, ZIP209 enabled, and the two founders address
lists). -/
def testNetParams : CChainParams :=
  { strNetworkID := "test"
    consensus :=
      { vUpgrades := testNetUpgrades
        nEquihashN := 200
        nEquihashK := 9
        fCoinbaseMustBeShielded := true }
    vFoundersRewardAddress := testNetFoundersRewardAddressList
    vYcashFoundersRewardAddress := testNetYcashFoundersRewardAddressList
    fZIP209Enabled := true }

/-- The static `regTestParams` object (members as set by the
`CRegTestParams` constructor: network id "regtest", Equihash N = 48 /
K = 5, no shielded-coinbase requirement, ZIP209 off until enabled, a
single-entry legacy founders list and the 48-entry successor list). -/
def regTestParams : CChainParams :=
  { strNetworkID := "regtest"
    consensus :=
      { vUpgrades := regTestUpgrades
        nEquihashN := 48
        nEquihashK := 5
        fCoinbaseMustBeShielded := false }
    vFoundersRewardAddress := regTestFoundersRewardAddressList
    vYcashFoundersRewardAddress := regTestYcashFoundersRewardAddressList
    fZIP209Enabled := false }

/-- The process state right after static initialisation: the three
parameter objects constructed, `pCurrentParams` still null. -/
def initialChainParamsState : ChainParamsState :=
  { mainParams := mainParams
    testNetParams := testNetParams
    regTestParams := regTestParams
    pCurrentParams := none }

/-- A 48-entry legacy founders list of pairwise distinct opaque addresses,
for the spec's concrete pre-fork scenario (48 entries, last legacy reward
height 480). -/
def scenarioLegacyList : List String :=
  (List.range 48).map (fun i => "zaddr" ++ toString i)

/-- A 48-entry successor founders list of pairwise distinct opaque
addresses, for the spec's concrete post-fork scenario. -/
def scenarioSuccessorList : List String :=
  (List.range 48).map (fun i => "yaddr" ++ toString i)

/-- Schedule for the concrete pre-fork scenario: only the base upgrade is
active; in particular neither the legacy-fork (YCASH) nor the rate-change
(Blossom) upgrade ever activates. -/
def scenarioUpgradesNever : UpgradeIndex → NetworkUpgrade
  | .BASE_SPROUT => ⟨170002, NetworkUpgrade.ALWAYS_ACTIVE⟩
  | _ => ⟨170002, NetworkUpgrade.NO_ACTIVATION_HEIGHT⟩

/-- Schedule for the concrete post-fork scenario: the legacy-fork (YCASH)
upgrade activates at height 1000, nothing else does. -/
def scenarioUpgradesYcash1000 : UpgradeIndex → NetworkUpgrade
  | .BASE_SPROUT => ⟨170002, NetworkUpgrade.ALWAYS_ACTIVE⟩
  | .UPGRADE_YCASH => ⟨270007, 1000⟩
  | _ => ⟨170002, NetworkUpgrade.NO_ACTIVATION_HEIGHT⟩

/-- Schedule for the rescaling scenario: the rate-change (Blossom) upgrade
activates at height 100, the legacy-fork (YCASH) upgrade never does. -/
def scenarioUpgradesBlossom100 : UpgradeIndex → NetworkUpgrade
  | .BASE_SPROUT => ⟨170002, NetworkUpgrade.ALWAYS_ACTIVE⟩
  | .UPGRADE_BLOSSOM => ⟨270008, 100⟩
  | _ => ⟨170002, NetworkUpgrade.NO_ACTIVATION_HEIGHT⟩

/-- Network of the spec's concrete pre-fork scenario: a 48-entry legacy
list and no rescaling upgrade active (used with last legacy reward
height 480). -/
def scenarioPreForkParams : CChainParams :=
  { strNetworkID := "test"
    consensus :=
      { vUpgrades := scenarioUpgradesNever
        nEquihashN := 200
        nEquihashK := 9
        fCoinbaseMustBeShielded := true }
    vFoundersRewardAddress := scenarioLegacyList
    vYcashFoundersRewardAddress := scenarioSuccessorList
    fZIP209Enabled := false }

/-- Network of the spec's concrete post-fork scenario: the legacy-fork
upgrade active from height 1000 and a 48-entry successor list. -/
def scenarioPostForkParams : CChainParams :=
  { scenarioPreForkParams with consensus :=
      { scenarioPreForkParams.consensus with vUpgrades := scenarioUpgradesYcash1000 } }

/-- Network of the rescaling scenario: the rate-change upgrade active from
height 100, the legacy-fork upgrade never active. -/
def scenarioBlossomParams : CChainParams :=
  { scenarioPreForkParams with consensus :=
      { scenarioPreForkParams.consensus with vUpgrades := scenarioUpgradesBlossom100 } }

/-! Helper lemmas shared by the claim theorems. -/

/-- Characterisation of upgrade activity: active iff the scheduled height
is not the never-activate sentinel and is at most the queried height. -/
theorem networkUpgradeActive_iff (nHeight : Int) (c : ConsensusParams) (idx : UpgradeIndex) :
    NetworkUpgradeActive nHeight c idx = true ↔
      (c.vUpgrades idx).nActivationHeight ≠ NetworkUpgrade.NO_ACTIVATION_HEIGHT ∧
        (c.vUpgrades idx).nActivationHeight ≤ nHeight := by
  unfold NetworkUpgradeActive
  by_cases h : (c.vUpgrades idx).nActivationHeight = NetworkUpgrade.NO_ACTIVATION_HEIGHT <;>
    simp [h]

/-- Activity is monotone in the height. -/
theorem networkUpgradeActive_mono {h1 h2 : Int} (c : ConsensusParams) (idx : UpgradeIndex)
    (hle : h1 ≤ h2) (h : NetworkUpgradeActive h1 c idx = true) :
    NetworkUpgradeActive h2 c idx = true := by
  rw [networkUpgradeActive_iff] at h ⊢
  exact ⟨h.1, le_trans h.2 hle⟩

/-- The Blossom height adjustment is monotone in the height (for a positive
spacing ratio). -/
theorem founderAddressAdjustedHeight_mono (spacingQuot : Int) (c : ConsensusParams)
    {h1 h2 : Int} (hsq : 0 < spacingQuot) (hle : h1 ≤ h2) :
    FounderAddressAdjustedHeight spacingQuot c h1 ≤
      FounderAddressAdjustedHeight spacingQuot c h2 := by
  unfold FounderAddressAdjustedHeight
  by_cases hb1 : NetworkUpgradeActive h1 c .UPGRADE_BLOSSOM = true
  · have hb2 := networkUpgradeActive_mono c .UPGRADE_BLOSSOM hle hb1
    rw [hb1, hb2]
    simp only [if_true]
    have ha1 := ((networkUpgradeActive_iff h1 c .UPGRADE_BLOSSOM).mp hb1).2
    have ha2 := ((networkUpgradeActive_iff h2 c .UPGRADE_BLOSSOM).mp hb2).2
    have hnn1 : 0 ≤ h1 - (c.vUpgrades .UPGRADE_BLOSSOM).nActivationHeight := by omega
    have hnn2 : 0 ≤ h2 - (c.vUpgrades .UPGRADE_BLOSSOM).nActivationHeight := by omega
    rw [Int.tdiv_eq_ediv hnn1 (le_of_lt hsq), Int.tdiv_eq_ediv hnn2 (le_of_lt hsq)]
    have := Int.ediv_le_ediv hsq (by omega :
      h1 - (c.vUpgrades .UPGRADE_BLOSSOM).nActivationHeight ≤
        h2 - (c.vUpgrades .UPGRADE_BLOSSOM).nActivationHeight)
    omega
  · rw [Bool.not_eq_true] at hb1
    rw [hb1]
    by_cases hb2 : NetworkUpgradeActive h2 c .UPGRADE_BLOSSOM = true
    · rw [hb2]
      simp only [if_true, if_false, Bool.false_eq_true]
      have ha2 := (networkUpgradeActive_iff h2 c .UPGRADE_BLOSSOM).mp hb2
      have hlt1 : ¬ ((c.vUpgrades .UPGRADE_BLOSSOM).nActivationHeight ≠
          NetworkUpgrade.NO_ACTIVATION_HEIGHT ∧
          (c.vUpgrades .UPGRADE_BLOSSOM).nActivationHeight ≤ h1) := by
        intro hc
        exact absurd ((networkUpgradeActive_iff h1 c .UPGRADE_BLOSSOM).mpr hc)
          (by simp [hb1])
      have htd : 0 ≤ (h2 - (c.vUpgrades .UPGRADE_BLOSSOM).nActivationHeight).tdiv spacingQuot :=
        Int.tdiv_nonneg (by omega) (le_of_lt hsq)
      have : h1 < (c.vUpgrades .UPGRADE_BLOSSOM).nActivationHeight := by
        by_contra hcon
        exact hlt1 ⟨ha2.1, by omega⟩
      omega
    · rw [Bool.not_eq_true] at hb2
      rw [hb2]
      simpa using hle

/-- The pre-fork rotation interval is positive for a non-empty list. -/
theorem addressChangeInterval_pos (lastH : Int) (p : CChainParams)
    (hlen : 0 < p.vFoundersRewardAddress.length) :
    0 < addressChangeInterval lastH p := by
  unfold addressChangeInterval
  exact Nat.div_pos (Nat.le_add_left _ _) hlen

/-- The pre-fork list index stays below the list length whenever the
adjusted height lies in the legacy reward period `(0, lastH]` — the core
bound behind the in-bounds vector access. -/
theorem foundersRewardIndex_lt (spacingQuot lastH : Int) (p : CChainParams) (nHeight : Int)
    (hlen : 0 < p.vFoundersRewardAddress.length)
    (_hlo : 0 < FounderAddressAdjustedHeight spacingQuot p.consensus nHeight)
    (hhi : FounderAddressAdjustedHeight spacingQuot p.consensus nHeight ≤ lastH) :
    foundersRewardIndex spacingQuot lastH p nHeight < p.vFoundersRewardAddress.length := by
  unfold foundersRewardIndex
  set n := p.vFoundersRewardAddress.length with hn
  set m := lastH.toNat with hm
  have hq : 0 < addressChangeInterval lastH p := addressChangeInterval_pos lastH p hlen
  rw [Nat.div_lt_iff_lt_mul hq]
  have hx : (FounderAddressAdjustedHeight spacingQuot p.consensus nHeight).toNat ≤ m :=
    Int.toNat_le_toNat hhi
  have hdm := Nat.div_add_mod (m + n) n
  have hmod : (m + n) % n < n := Nat.mod_lt _ hlen
  have hinterval : addressChangeInterval lastH p = (m + n) / n := rfl
  rw [hinterval]
  have hkey : m < n * ((m + n) / n) := by omega
  omega

/-- Unfolding of the pre-fork branch of the rotation: when the legacy-fork
upgrade is not active and the adjusted height passes the assert, the result
is the legacy-list entry at the computed index, re-encoded. -/
theorem getFoundersRewardAddressAtHeight_prefork (zecToYec : String → String)
    (spacingQuot lastH : Int) (p : CChainParams) (nHeight : Int)
    (hy : NetworkUpgradeActive nHeight p.consensus .UPGRADE_YCASH = false)
    (hlo : 0 < FounderAddressAdjustedHeight spacingQuot p.consensus nHeight)
    (hhi : FounderAddressAdjustedHeight spacingQuot p.consensus nHeight ≤ lastH) :
    GetFoundersRewardAddressAtHeight zecToYec spacingQuot lastH p nHeight =
      (p.vFoundersRewardAddress.get?
        (foundersRewardIndex spacingQuot lastH p nHeight)).map zecToYec := by
  unfold GetFoundersRewardAddressAtHeight foundersRewardIndex
  rw [hy]
  simp only [Bool.not_false, if_true]
  rw [if_pos ⟨hlo, hhi⟩]

/-- Unfolding of the post-fork branch of the rotation: when the legacy-fork
upgrade is active, the result is the successor-list entry at the wrapped
index. -/
theorem getFoundersRewardAddressAtHeight_postfork (zecToYec : String → String)
    (spacingQuot lastH : Int) (p : CChainParams) (nHeight : Int)
    (hy : NetworkUpgradeActive nHeight p.consensus .UPGRADE_YCASH = true) :
    GetFoundersRewardAddressAtHeight zecToYec spacingQuot lastH p nHeight =
      p.vYcashFoundersRewardAddress.get?
        (((nHeight - (p.consensus.vUpgrades .UPGRADE_YCASH).nActivationHeight).toNat / 17917) %
          p.vYcashFoundersRewardAddress.length) := by
  unfold GetFoundersRewardAddressAtHeight
  rw [hy]
  simp only [Bool.not_true, if_false, Bool.false_eq_true]

/-! The claim theorems. -/

/-- C10: for every height whose (possibly rescaled) adjusted height lies in
`(0, lastFoundersRewardBlockHeight]`, the pre-fork legacy-list index
`adjustedHeight / ((maxHeight + listSize) / listSize)` computed by
`GetFoundersRewardAddressAtHeight` is strictly below the (non-empty)
legacy list's size — so the list access never goes out of bounds, and the
pre-fork branch returns a value (no out-of-range access, modelled as
`isSome`); this holds in particular at adjusted height = maxHeight. -/
theorem C10_prefork_index_in_bounds (zecToYec : String → String)
    (spacingQuot lastH : Int) (p : CChainParams) (nHeight : Int)
    (hlen : 0 < p.vFoundersRewardAddress.length)
    (hlo : 0 < FounderAddressAdjustedHeight spacingQuot p.consensus nHeight)
    (hhi : FounderAddressAdjustedHeight spacingQuot p.consensus nHeight ≤ lastH) :
    foundersRewardIndex spacingQuot lastH p nHeight < p.vFoundersRewardAddress.length ∧
      (NetworkUpgradeActive nHeight p.consensus .UPGRADE_YCASH = false →
        (GetFoundersRewardAddressAtHeight zecToYec spacingQuot lastH p nHeight).isSome = true) := by
  have hidx := foundersRewardIndex_lt spacingQuot lastH p nHeight hlen hlo hhi
  refine ⟨hidx, fun hy => ?_⟩
  rw [getFoundersRewardAddressAtHeight_prefork zecToYec spacingQuot lastH p nHeight hy hlo hhi]
  rw [List.get?_eq_get hidx]
  rfl

/-- C10 witness: on the 48-entry scenario network with last legacy reward
height 480, the bound holds at the period's very last height 480 (where the
adjusted height equals the maximum height exactly). -/
theorem C10_prefork_index_in_bounds_witness :
    (0 < scenarioPreForkParams.vFoundersRewardAddress.length ∧
      0 < FounderAddressAdjustedHeight 2 scenarioPreForkParams.consensus 480 ∧
      FounderAddressAdjustedHeight 2 scenarioPreForkParams.consensus 480 ≤ 480) ∧
    (foundersRewardIndex 2 480 scenarioPreForkParams 480 <
        scenarioPreForkParams.vFoundersRewardAddress.length ∧
      (NetworkUpgradeActive 480 scenarioPreForkParams.consensus .UPGRADE_YCASH = false →
        (GetFoundersRewardAddressAtHeight (fun s => "yec-" ++ s) 2 480
          scenarioPreForkParams 480).isSome = true)) :=
  ⟨⟨by decide, by decide, by decide⟩,
    C10_prefork_index_in_bounds (fun s => "yec-" ++ s) 2 480 scenarioPreForkParams 480
      (by decide) (by decide) (by decide)⟩

/-- C5: for two pre-fork heights h1 ≤ h2 whose adjusted heights satisfy the
pre-fork precondition (positive, at most the last legacy reward height),
the legacy-list index computed by `GetFoundersRewardAddressAtHeight` at h1
is at most the one at h2, and both returned addresses are re-encodings of
entries of the legacy founders list only. -/
theorem C5_prefork_index_monotone (zecToYec : String → String)
    (spacingQuot lastH : Int) (p : CChainParams) (h1 h2 : Int)
    (hsq : 0 < spacingQuot) (hle : h1 ≤ h2)
    (hy1 : NetworkUpgradeActive h1 p.consensus .UPGRADE_YCASH = false)
    (hy2 : NetworkUpgradeActive h2 p.consensus .UPGRADE_YCASH = false)
    (hlen : 0 < p.vFoundersRewardAddress.length)
    (hlo : 0 < FounderAddressAdjustedHeight spacingQuot p.consensus h1)
    (hhi : FounderAddressAdjustedHeight spacingQuot p.consensus h2 ≤ lastH) :
    foundersRewardIndex spacingQuot lastH p h1 ≤ foundersRewardIndex spacingQuot lastH p h2 ∧
      (∃ a1 ∈ p.vFoundersRewardAddress,
        GetFoundersRewardAddressAtHeight zecToYec spacingQuot lastH p h1 = some (zecToYec a1)) ∧
      (∃ a2 ∈ p.vFoundersRewardAddress,
        GetFoundersRewardAddressAtHeight zecToYec spacingQuot lastH p h2 = some (zecToYec a2)) := by
  have hadj := founderAddressAdjustedHeight_mono spacingQuot p.consensus hsq hle
  have hlo2 : 0 < FounderAddressAdjustedHeight spacingQuot p.consensus h2 :=
    lt_of_lt_of_le hlo hadj
  have hhi1 : FounderAddressAdjustedHeight spacingQuot p.consensus h1 ≤ lastH :=
    le_trans hadj hhi
  refine ⟨?_, ?_, ?_⟩
  · unfold foundersRewardIndex
    exact Nat.div_le_div_right (Int.toNat_le_toNat hadj)
  · have hidx := foundersRewardIndex_lt spacingQuot lastH p h1 hlen hlo hhi1
    refine ⟨p.vFoundersRewardAddress.get ⟨_, hidx⟩, List.get_mem _ _ _, ?_⟩
    rw [getFoundersRewardAddressAtHeight_prefork zecToYec spacingQuot lastH p h1 hy1 hlo hhi1,
      List.get?_eq_get hidx]
    rfl
  · have hidx := foundersRewardIndex_lt spacingQuot lastH p h2 hlen hlo2 hhi
    refine ⟨p.vFoundersRewardAddress.get ⟨_, hidx⟩, List.get_mem _ _ _, ?_⟩
    rw [getFoundersRewardAddressAtHeight_prefork zecToYec spacingQuot lastH p h2 hy2 hlo2 hhi,
      List.get?_eq_get hidx]
    rfl

/-- C5 witness: on the 48-entry scenario network with last legacy reward
height 480, heights 240 ≤ 480 give monotone indices and legacy-list
results. -/
theorem C5_prefork_index_monotone_witness :
    (0 < (2 : Int) ∧ (240 : Int) ≤ 480 ∧
      NetworkUpgradeActive 240 scenarioPreForkParams.consensus .UPGRADE_YCASH = false ∧
      NetworkUpgradeActive 480 scenarioPreForkParams.consensus .UPGRADE_YCASH = false ∧
      0 < scenarioPreForkParams.vFoundersRewardAddress.length ∧
      0 < FounderAddressAdjustedHeight 2 scenarioPreForkParams.consensus 240 ∧
      FounderAddressAdjustedHeight 2 scenarioPreForkParams.consensus 480 ≤ 480) ∧
    (foundersRewardIndex 2 480 scenarioPreForkParams 240 ≤
        foundersRewardIndex 2 480 scenarioPreForkParams 480 ∧
      (∃ a1 ∈ scenarioPreForkParams.vFoundersRewardAddress,
        GetFoundersRewardAddressAtHeight (fun s => "yec-" ++ s) 2 480 scenarioPreForkParams 240 =
          some ((fun s => "yec-" ++ s) a1)) ∧
      (∃ a2 ∈ scenarioPreForkParams.vFoundersRewardAddress,
        GetFoundersRewardAddressAtHeight (fun s => "yec-" ++ s) 2 480 scenarioPreForkParams 480 =
          some ((fun s => "yec-" ++ s) a2))) :=
  ⟨⟨by decide, by decide, by decide, by decide, by decide, by decide, by decide⟩,
    C5_prefork_index_monotone (fun s => "yec-" ++ s) 2 480 scenarioPreForkParams 240 480
      (by decide) (by decide) (by decide) (by decide) (by decide) (by decide) (by decide)⟩

/-- C3: in the pre-fork regime the rotation height is first adjusted: if
the rate-change (Blossom) upgrade is active at the height, the height is
replaced by `activation + (height - activation) / spacingRatio`; if it is
not active the raw height is used; and the address returned is the legacy
rotation applied to this adjusted height. -/
theorem C3_blossom_rescaling (zecToYec : String → String)
    (spacingQuot lastH : Int) (p : CChainParams) (nHeight : Int)
    (hy : NetworkUpgradeActive nHeight p.consensus .UPGRADE_YCASH = false) :
    (NetworkUpgradeActive nHeight p.consensus .UPGRADE_BLOSSOM = true →
      FounderAddressAdjustedHeight spacingQuot p.consensus nHeight =
        (p.consensus.vUpgrades .UPGRADE_BLOSSOM).nActivationHeight +
          (nHeight - (p.consensus.vUpgrades .UPGRADE_BLOSSOM).nActivationHeight).tdiv
            spacingQuot) ∧
    (NetworkUpgradeActive nHeight p.consensus .UPGRADE_BLOSSOM = false →
      FounderAddressAdjustedHeight spacingQuot p.consensus nHeight = nHeight) ∧
    GetFoundersRewardAddressAtHeight zecToYec spacingQuot lastH p nHeight =
      (if 0 < FounderAddressAdjustedHeight spacingQuot p.consensus nHeight ∧
          FounderAddressAdjustedHeight spacingQuot p.consensus nHeight ≤ lastH then
        (p.vFoundersRewardAddress.get?
          (foundersRewardIndex spacingQuot lastH p nHeight)).map zecToYec
      else none) := by
  refine ⟨fun hb => ?_, fun hb => ?_, ?_⟩
  · unfold FounderAddressAdjustedHeight
    rw [hb]
    simp
  · unfold FounderAddressAdjustedHeight
    rw [hb]
    simp
  · by_cases hr : 0 < FounderAddressAdjustedHeight spacingQuot p.consensus nHeight ∧
        FounderAddressAdjustedHeight spacingQuot p.consensus nHeight ≤ lastH
    · rw [if_pos hr]
      exact getFoundersRewardAddressAtHeight_prefork zecToYec spacingQuot lastH p nHeight
        hy hr.1 hr.2
    · rw [if_neg hr]
      unfold GetFoundersRewardAddressAtHeight
      rw [hy]
      simp only [Bool.not_false, if_true]
      rw [if_neg hr]

/-- C3 witness: on the scenario network where Blossom activates at
height 100 and the legacy fork never does, height 250 with spacing ratio 2
is rescaled to 100 + (250 - 100) / 2 = 175 and rotated there. -/
theorem C3_blossom_rescaling_witness :
    (NetworkUpgradeActive 250 scenarioBlossomParams.consensus .UPGRADE_YCASH = false) ∧
    ((NetworkUpgradeActive 250 scenarioBlossomParams.consensus .UPGRADE_BLOSSOM = true →
      FounderAddressAdjustedHeight 2 scenarioBlossomParams.consensus 250 =
        (scenarioBlossomParams.consensus.vUpgrades .UPGRADE_BLOSSOM).nActivationHeight +
          (250 - (scenarioBlossomParams.consensus.vUpgrades .UPGRADE_BLOSSOM).nActivationHeight).tdiv
            2) ∧
    (NetworkUpgradeActive 250 scenarioBlossomParams.consensus .UPGRADE_BLOSSOM = false →
      FounderAddressAdjustedHeight 2 scenarioBlossomParams.consensus 250 = 250) ∧
    GetFoundersRewardAddressAtHeight (fun s => "yec-" ++ s) 2 480 scenarioBlossomParams 250 =
      (if 0 < FounderAddressAdjustedHeight 2 scenarioBlossomParams.consensus 250 ∧
          FounderAddressAdjustedHeight 2 scenarioBlossomParams.consensus 250 ≤ 480 then
        (scenarioBlossomParams.vFoundersRewardAddress.get?
          (foundersRewardIndex 2 480 scenarioBlossomParams 250)).map (fun s => "yec-" ++ s)
      else none)) :=
  ⟨by decide,
    C3_blossom_rescaling (fun s => "yec-" ++ s) 2 480 scenarioBlossomParams 250 (by decide)⟩

/-- C1 counterexample: the claim's interval is ceil(maxHeight / listSize).
On the scenario network (48-entry legacy list, last legacy reward height
480, no rescaling), ceil(480 / 48) = (480 + 48 - 1) / 48 = 10, so the claim
predicts the entry at index 240 / 10 = 24 at height 240; the code divides
by (480 + 48) / 48 = 11 and returns the entry at index 240 / 11 = 21
instead. -/
theorem C1_counterexample :
    GetFoundersRewardAddressAtHeight (fun s => "yec-" ++ s) 2 480 scenarioPreForkParams 240 =
        some "yec-zaddr21" ∧
      GetFoundersRewardAddressAtHeight (fun s => "yec-" ++ s) 2 480 scenarioPreForkParams 240 ≠
        (scenarioPreForkParams.vFoundersRewardAddress.get?
          (240 / ((480 + 48 - 1) / 48))).map (fun s => "yec-" ++ s) := by
  exact ⟨by decide, by decide⟩

/-- C1 (amended): in the pre-fork regime the rotation interval is
`floor(maxHeight / legacyListSize) + 1` — equal to the claim's
`ceil(maxHeight / legacyListSize)` exactly when the list size does not
divide `maxHeight` — the index is `floor(adjustedHeight / interval)`, and
the returned value is the legacy-list entry at that index re-encoded into
the current network's format via `ZecToYec`. -/
theorem C1_prefork_rotation (zecToYec : String → String)
    (spacingQuot lastH : Int) (p : CChainParams) (nHeight : Int)
    (hy : NetworkUpgradeActive nHeight p.consensus .UPGRADE_YCASH = false)
    (hlen : 0 < p.vFoundersRewardAddress.length)
    (hlo : 0 < FounderAddressAdjustedHeight spacingQuot p.consensus nHeight)
    (hhi : FounderAddressAdjustedHeight spacingQuot p.consensus nHeight ≤ lastH) :
    addressChangeInterval lastH p =
        lastH.toNat / p.vFoundersRewardAddress.length + 1 ∧
      GetFoundersRewardAddressAtHeight zecToYec spacingQuot lastH p nHeight =
        (p.vFoundersRewardAddress.get?
          ((FounderAddressAdjustedHeight spacingQuot p.consensus nHeight).toNat /
            (lastH.toNat / p.vFoundersRewardAddress.length + 1))).map zecToYec := by
  have hint : addressChangeInterval lastH p =
      lastH.toNat / p.vFoundersRewardAddress.length + 1 := by
    unfold addressChangeInterval
    exact Nat.add_div_right _ hlen
  refine ⟨hint, ?_⟩
  rw [getFoundersRewardAddressAtHeight_prefork zecToYec spacingQuot lastH p nHeight hy hlo hhi]
  unfold foundersRewardIndex
  rw [hint]

/-- C1 witness: on the scenario network, height 240 passes the amended
rotation formula: interval (480 + 48) / 48 = 480 / 48 + 1 = 11. -/
theorem C1_prefork_rotation_witness :
    (NetworkUpgradeActive 240 scenarioPreForkParams.consensus .UPGRADE_YCASH = false ∧
      0 < scenarioPreForkParams.vFoundersRewardAddress.length ∧
      0 < FounderAddressAdjustedHeight 2 scenarioPreForkParams.consensus 240 ∧
      FounderAddressAdjustedHeight 2 scenarioPreForkParams.consensus 240 ≤ 480) ∧
    (addressChangeInterval 480 scenarioPreForkParams =
        (480 : Int).toNat / scenarioPreForkParams.vFoundersRewardAddress.length + 1 ∧
      GetFoundersRewardAddressAtHeight (fun s => "yec-" ++ s) 2 480 scenarioPreForkParams 240 =
        (scenarioPreForkParams.vFoundersRewardAddress.get?
          ((FounderAddressAdjustedHeight 2 scenarioPreForkParams.consensus 240).toNat /
            ((480 : Int).toNat / scenarioPreForkParams.vFoundersRewardAddress.length + 1))).map
          (fun s => "yec-" ++ s)) :=
  ⟨⟨by decide, by decide, by decide, by decide⟩,
    C1_prefork_rotation (fun s => "yec-" ++ s) 2 480 scenarioPreForkParams 240
      (by decide) (by decide) (by decide) (by decide)⟩

/-- C2 counterexample: on the scenario network (48 entries, last legacy
reward height 480, no rescaling), the claim predicts the entries at
indices 24 and 47 at heights 240 and 480; the code returns the entries at
indices 21 and 43. -/
theorem C2_counterexample :
    GetFoundersRewardAddressAtHeight (fun s => "yec-" ++ s) 2 480 scenarioPreForkParams 240 ≠
        (scenarioPreForkParams.vFoundersRewardAddress.get? 24).map (fun s => "yec-" ++ s) ∧
      GetFoundersRewardAddressAtHeight (fun s => "yec-" ++ s) 2 480 scenarioPreForkParams 480 ≠
        (scenarioPreForkParams.vFoundersRewardAddress.get? 47).map (fun s => "yec-" ++ s) := by
  exact ⟨by decide, by decide⟩

/-- C2 (amended): on a network whose legacy founders list has 48 entries
and whose last legacy reward height is 480, with no rescaling upgrade
active, the rotation interval is (480 + 48) / 48 = 11, so
`GetFoundersRewardAddressAtHeight` returns the re-encoded legacy entries
at indices 0, 21 and 43 at heights 1, 240 and 480 (not 0, 24 and 47 as the
claim stated). -/
theorem C2_scenario_heights :
    GetFoundersRewardAddressAtHeight (fun s => "yec-" ++ s) 2 480 scenarioPreForkParams 1 =
        (scenarioPreForkParams.vFoundersRewardAddress.get? 0).map (fun s => "yec-" ++ s) ∧
      GetFoundersRewardAddressAtHeight (fun s => "yec-" ++ s) 2 480 scenarioPreForkParams 240 =
        (scenarioPreForkParams.vFoundersRewardAddress.get? 21).map (fun s => "yec-" ++ s) ∧
      GetFoundersRewardAddressAtHeight (fun s => "yec-" ++ s) 2 480 scenarioPreForkParams 480 =
        (scenarioPreForkParams.vFoundersRewardAddress.get? 43).map (fun s => "yec-" ++ s) := by
  exact ⟨by decide, by decide, by decide⟩

/-- C4: in the post-fork regime the index is
`floor((height - forkActivation) / 17917) mod successorListSize`, so the
rotation wraps: at `forkActivation + k · 17917 · listSize` the address is
the successor list's first entry, for every non-negative integer k. -/
theorem C4_postfork_rotation_wraps (zecToYec : String → String)
    (spacingQuot lastH : Int) (p : CChainParams) (a : Int)
    (ha : (p.consensus.vUpgrades .UPGRADE_YCASH).nActivationHeight = a)
    (hne : a ≠ NetworkUpgrade.NO_ACTIVATION_HEIGHT)
    (hlen : 0 < p.vYcashFoundersRewardAddress.length) :
    (∀ nHeight : Int, a ≤ nHeight →
      GetFoundersRewardAddressAtHeight zecToYec spacingQuot lastH p nHeight =
        p.vYcashFoundersRewardAddress.get?
          (((nHeight - a).toNat / 17917) % p.vYcashFoundersRewardAddress.length)) ∧
    (∀ k : Nat,
      GetFoundersRewardAddressAtHeight zecToYec spacingQuot lastH p
          (a + (k : Int) * 17917 * (p.vYcashFoundersRewardAddress.length : Int)) =
        p.vYcashFoundersRewardAddress.get? 0) := by
  have hgen : ∀ nHeight : Int, a ≤ nHeight →
      GetFoundersRewardAddressAtHeight zecToYec spacingQuot lastH p nHeight =
        p.vYcashFoundersRewardAddress.get?
          (((nHeight - a).toNat / 17917) % p.vYcashFoundersRewardAddress.length) := by
    intro nHeight hle
    have hy : NetworkUpgradeActive nHeight p.consensus .UPGRADE_YCASH = true :=
      (networkUpgradeActive_iff nHeight p.consensus .UPGRADE_YCASH).mpr
        (by rw [ha]; exact ⟨hne, hle⟩)
    rw [getFoundersRewardAddressAtHeight_postfork zecToYec spacingQuot lastH p nHeight hy, ha]
  refine ⟨hgen, fun k => ?_⟩
  have hstep : (0 : Int) ≤ (k : Int) * 17917 * (p.vYcashFoundersRewardAddress.length : Int) := by
    positivity
  rw [hgen (a + (k : Int) * 17917 * (p.vYcashFoundersRewardAddress.length : Int)) (by omega)]
  have htn : ((a + (k : Int) * 17917 * (p.vYcashFoundersRewardAddress.length : Int)) - a).toNat =
      k * 17917 * p.vYcashFoundersRewardAddress.length := by
    have : (a + (k : Int) * 17917 * (p.vYcashFoundersRewardAddress.length : Int)) - a =
        ((k * 17917 * p.vYcashFoundersRewardAddress.length : Nat) : Int) := by
      push_cast
      ring
    rw [this, Int.toNat_ofNat]
  rw [htn]
  have hdiv : k * 17917 * p.vYcashFoundersRewardAddress.length / 17917 =
      k * p.vYcashFoundersRewardAddress.length := by
    rw [show k * 17917 * p.vYcashFoundersRewardAddress.length =
      17917 * (k * p.vYcashFoundersRewardAddress.length) by ring]
    exact Nat.mul_div_cancel_left _ (by norm_num)
  rw [hdiv, Nat.mul_mod_left]

/-- C4 witness: on the scenario post-fork network (fork at height 1000,
48-entry successor list), heights 1000 and 1000 + 48·17917 = 861016 both
return the first successor entry. -/
theorem C4_postfork_rotation_wraps_witness :
    ((scenarioPostForkParams.consensus.vUpgrades .UPGRADE_YCASH).nActivationHeight = 1000 ∧
      (1000 : Int) ≠ NetworkUpgrade.NO_ACTIVATION_HEIGHT ∧
      0 < scenarioPostForkParams.vYcashFoundersRewardAddress.length) ∧
    GetFoundersRewardAddressAtHeight (fun s => "yec-" ++ s) 2 480 scenarioPostForkParams
        (1000 + ((0 : Nat) : Int) * 17917 *
          (scenarioPostForkParams.vYcashFoundersRewardAddress.length : Int)) =
      scenarioPostForkParams.vYcashFoundersRewardAddress.get? 0 ∧
    GetFoundersRewardAddressAtHeight (fun s => "yec-" ++ s) 2 480 scenarioPostForkParams
        (1000 + ((1 : Nat) : Int) * 17917 *
          (scenarioPostForkParams.vYcashFoundersRewardAddress.length : Int)) =
      scenarioPostForkParams.vYcashFoundersRewardAddress.get? 0 :=
  ⟨⟨by decide, by decide, by decide⟩,
    (C4_postfork_rotation_wraps (fun s => "yec-" ++ s) 2 480 scenarioPostForkParams 1000
      (by decide) (by decide) (by decide)).2 0,
    (C4_postfork_rotation_wraps (fun s => "yec-" ++ s) 2 480 scenarioPostForkParams 1000
      (by decide) (by decide) (by decide)).2 1⟩

/-- C6: on the regtest network `EquihashN` and `EquihashK` return the
network-wide configured pair (N, K) = (48, 5) for every height and every
per-epoch table — the epoch lookup is bypassed, so the result is the same
constant for all heights. -/
theorem C6_regtest_equihash_constant (equihashUpgradeInfo : UpgradeIndex → EquihashInfo)
    (nHeight : Int) :
    EquihashN regTestParams equihashUpgradeInfo nHeight = regTestParams.consensus.nEquihashN ∧
      EquihashK regTestParams equihashUpgradeInfo nHeight = regTestParams.consensus.nEquihashK ∧
      EquihashN regTestParams equihashUpgradeInfo nHeight = 48 ∧
      EquihashK regTestParams equihashUpgradeInfo nHeight = 5 :=
  ⟨rfl, rfl, rfl, rfl⟩

/-- C7: on a non-regtest network `EquihashN` / `EquihashK` look up the
per-epoch entry for `CurrentEpoch(height)`, and each of N and K is
independently replaced by the network-wide default exactly when it equals
the inherit-default sentinel. -/
theorem C7_equihash_epoch_lookup (p : CChainParams)
    (equihashUpgradeInfo : UpgradeIndex → EquihashInfo) (nHeight : Int)
    (hreg : p.strNetworkID ≠ "regtest") :
    EquihashN p equihashUpgradeInfo nHeight =
        (if (equihashUpgradeInfo (CurrentEpoch nHeight p.consensus)).N =
            EquihashInfo.DEFAULT_PARAMS then p.consensus.nEquihashN
          else (equihashUpgradeInfo (CurrentEpoch nHeight p.consensus)).N) ∧
      EquihashK p equihashUpgradeInfo nHeight =
        (if (equihashUpgradeInfo (CurrentEpoch nHeight p.consensus)).K =
            EquihashInfo.DEFAULT_PARAMS then p.consensus.nEquihashK
          else (equihashUpgradeInfo (CurrentEpoch nHeight p.consensus)).K) := by
  unfold EquihashN EquihashK
  rw [if_neg hreg, if_neg hreg]
  exact ⟨rfl, rfl⟩

/-- C7 witness: on mainnet with a table whose entry at the current epoch
has sentinel N and explicit K = 7, N inherits the default 200 while K
stays 7 — the two fields inherit independently. -/
theorem C7_equihash_epoch_lookup_witness :
    (mainParams.strNetworkID ≠ "regtest") ∧
    (EquihashN mainParams (fun _ => ⟨EquihashInfo.DEFAULT_PARAMS, 7⟩) 600000 =
        (if ((fun (_ : UpgradeIndex) => (⟨EquihashInfo.DEFAULT_PARAMS, 7⟩ : EquihashInfo))
              (CurrentEpoch 600000 mainParams.consensus)).N =
            EquihashInfo.DEFAULT_PARAMS then mainParams.consensus.nEquihashN
          else ((fun (_ : UpgradeIndex) => (⟨EquihashInfo.DEFAULT_PARAMS, 7⟩ : EquihashInfo))
              (CurrentEpoch 600000 mainParams.consensus)).N) ∧
      EquihashK mainParams (fun _ => ⟨EquihashInfo.DEFAULT_PARAMS, 7⟩) 600000 =
        (if ((fun (_ : UpgradeIndex) => (⟨EquihashInfo.DEFAULT_PARAMS, 7⟩ : EquihashInfo))
              (CurrentEpoch 600000 mainParams.consensus)).K =
            EquihashInfo.DEFAULT_PARAMS then mainParams.consensus.nEquihashK
          else ((fun (_ : UpgradeIndex) => (⟨EquihashInfo.DEFAULT_PARAMS, 7⟩ : EquihashInfo))
              (CurrentEpoch 600000 mainParams.consensus)).K)) :=
  ⟨by decide,
    C7_equihash_epoch_lookup mainParams (fun _ => ⟨EquihashInfo.DEFAULT_PARAMS, 7⟩) 600000
      (by decide)⟩

/-- C8: selecting a network by name succeeds exactly for "main", "test"
and "regtest" (binding the process-wide current pointer to the matching
parameter set); any other name makes `Params` — and hence `SelectParams` —
fail with the "Unknown chain" error at selection time, returning no new
state, so the current-parameters binding is left unchanged. -/
theorem C8_select_known_networks (st : ChainParamsState) (mapArgs : List String)
    (chain : String)
    (h1 : chain ≠ CBaseChainParams.MAIN)
    (h2 : chain ≠ CBaseChainParams.TESTNET)
    (h3 : chain ≠ CBaseChainParams.REGTEST) :
    Params chain = Except.error ("Params: Unknown chain " ++ chain ++ ".") ∧
      SelectParams st chain mapArgs =
        Except.error ("Params: Unknown chain " ++ chain ++ ".") ∧
      Params CBaseChainParams.MAIN = Except.ok BaseChain.MAIN ∧
      Params CBaseChainParams.TESTNET = Except.ok BaseChain.TESTNET ∧
      Params CBaseChainParams.REGTEST = Except.ok BaseChain.REGTEST ∧
      SelectParams st CBaseChainParams.MAIN mapArgs =
        Except.ok { st with pCurrentParams := some BaseChain.MAIN } ∧
      SelectParams st CBaseChainParams.TESTNET mapArgs =
        Except.ok { st with pCurrentParams := some BaseChain.TESTNET } ∧
      (∃ st', SelectParams st CBaseChainParams.REGTEST mapArgs = Except.ok st' ∧
        st'.pCurrentParams = some BaseChain.REGTEST) := by
  have hperr : Params chain = Except.error ("Params: Unknown chain " ++ chain ++ ".") := by
    unfold Params
    rw [if_neg h1, if_neg h2, if_neg h3]
  refine ⟨hperr, ?_, rfl, rfl, rfl, ?_, ?_, ?_⟩
  · unfold SelectParams
    rw [hperr]
  · unfold SelectParams
    simp [Params, CBaseChainParams.MAIN, CBaseChainParams.TESTNET, CBaseChainParams.REGTEST]
  · unfold SelectParams
    simp [Params, CBaseChainParams.MAIN, CBaseChainParams.TESTNET, CBaseChainParams.REGTEST]
  · refine ⟨_, rfl, ?_⟩
    split
    · split
      · rfl
      · rfl
    · split
      · rfl
      · rfl

/-- C8 witness: the unknown name "ycashfoo" fails at selection time from
the freshly initialised state, while the three known names succeed. -/
theorem C8_select_known_networks_witness :
    ("ycashfoo" ≠ CBaseChainParams.MAIN ∧ "ycashfoo" ≠ CBaseChainParams.TESTNET ∧
      "ycashfoo" ≠ CBaseChainParams.REGTEST) ∧
    (Params "ycashfoo" = Except.error ("Params: Unknown chain " ++ "ycashfoo" ++ ".") ∧
      SelectParams initialChainParamsState "ycashfoo" [] =
        Except.error ("Params: Unknown chain " ++ "ycashfoo" ++ ".") ∧
      Params CBaseChainParams.MAIN = Except.ok BaseChain.MAIN ∧
      Params CBaseChainParams.TESTNET = Except.ok BaseChain.TESTNET ∧
      Params CBaseChainParams.REGTEST = Except.ok BaseChain.REGTEST ∧
      SelectParams initialChainParamsState CBaseChainParams.MAIN [] =
        Except.ok { initialChainParamsState with pCurrentParams := some BaseChain.MAIN } ∧
      SelectParams initialChainParamsState CBaseChainParams.TESTNET [] =
        Except.ok { initialChainParamsState with pCurrentParams := some BaseChain.TESTNET } ∧
      (∃ st', SelectParams initialChainParamsState CBaseChainParams.REGTEST [] =
          Except.ok st' ∧ st'.pCurrentParams = some BaseChain.REGTEST)) :=
  ⟨⟨by decide, by decide, by decide⟩,
    C8_select_known_networks initialChainParamsState [] "ycashfoo"
      (by decide) (by decide) (by decide)⟩

/-- C9 counterexample: with the main network selected as the current
parameter set, calling the schedule-mutation entry point
`UpdateNetworkUpgradeParameters` does not abort: it succeeds and silently
changes the regtest parameter set's upgrade schedule (TESTDUMMY's
activation height goes from the never-activate sentinel to 100). -/
theorem C9_counterexample :
    ({ initialChainParamsState with
        pCurrentParams := some BaseChain.MAIN } : ChainParamsState).pCurrentParams =
        some BaseChain.MAIN ∧
      ∃ st', UpdateNetworkUpgradeParameters
          { initialChainParamsState with pCurrentParams := some BaseChain.MAIN }
          .UPGRADE_TESTDUMMY 100 = some st' ∧
        (st'.regTestParams.consensus.vUpgrades .UPGRADE_TESTDUMMY).nActivationHeight = 100 ∧
        (st'.regTestParams.consensus.vUpgrades .UPGRADE_TESTDUMMY).nActivationHeight ≠
          (regTestParams.consensus.vUpgrades .UPGRADE_TESTDUMMY).nActivationHeight := by
  refine ⟨rfl, _, rfl, by decide, by decide⟩

/-- C9 (amended): `UpdateNetworkUpgradeParameters` never consults the
selected network: for any selection state it applies the new activation
height to the regtest parameter set only — leaving the main and testnet
parameter sets and the current pointer unchanged — and it aborts exactly
when the index is the immutable base index or out of the declared range. -/
theorem C9_update_targets_regtest_only (st : ChainParamsState)
    (idx : UpgradeIndex) (nActivationHeight : Int) :
    (UpgradeIndex.BASE_SPROUT.toNat < idx.toNat ∧ idx.toNat < MAX_NETWORK_UPGRADES →
      ∃ st', UpdateNetworkUpgradeParameters st idx nActivationHeight = some st' ∧
        st'.mainParams = st.mainParams ∧
        st'.testNetParams = st.testNetParams ∧
        st'.pCurrentParams = st.pCurrentParams ∧
        (st'.regTestParams.consensus.vUpgrades idx).nActivationHeight = nActivationHeight ∧
        (∀ j, j ≠ idx →
          st'.regTestParams.consensus.vUpgrades j = st.regTestParams.consensus.vUpgrades j)) ∧
    (¬(UpgradeIndex.BASE_SPROUT.toNat < idx.toNat ∧ idx.toNat < MAX_NETWORK_UPGRADES) →
      UpdateNetworkUpgradeParameters st idx nActivationHeight = none) := by
  unfold UpdateNetworkUpgradeParameters CChainParams.UpdateNetworkUpgradeParameters
  constructor
  · intro hr
    rw [if_pos hr]
    refine ⟨_, rfl, rfl, rfl, rfl, ?_, ?_⟩
    · simp
    · intro j hj
      simp [hj]
  · intro hr
    rw [if_neg hr]
    rfl

/-- C9 amended-claim witness: with main selected, index TESTDUMMY and
height 100 are applied to the regtest schedule while everything else of
the state is untouched. -/
theorem C9_update_targets_regtest_only_witness :
    (UpgradeIndex.BASE_SPROUT.toNat < UpgradeIndex.UPGRADE_TESTDUMMY.toNat ∧
      UpgradeIndex.UPGRADE_TESTDUMMY.toNat < MAX_NETWORK_UPGRADES) ∧
    (∃ st', UpdateNetworkUpgradeParameters
        { initialChainParamsState with pCurrentParams := some BaseChain.MAIN }
        .UPGRADE_TESTDUMMY 100 = some st' ∧
      st'.mainParams =
        ({ initialChainParamsState with
          pCurrentParams := some BaseChain.MAIN } : ChainParamsState).mainParams ∧
      st'.testNetParams =
        ({ initialChainParamsState with
          pCurrentParams := some BaseChain.MAIN } : ChainParamsState).testNetParams ∧
      st'.pCurrentParams =
        ({ initialChainParamsState with
          pCurrentParams := some BaseChain.MAIN } : ChainParamsState).pCurrentParams ∧
      (st'.regTestParams.consensus.vUpgrades .UPGRADE_TESTDUMMY).nActivationHeight = 100 ∧
      (∀ j, j ≠ UpgradeIndex.UPGRADE_TESTDUMMY →
        st'.regTestParams.consensus.vUpgrades j =
          ({ initialChainParamsState with
            pCurrentParams := some BaseChain.MAIN } : ChainParamsState).regTestParams.consensus.vUpgrades
            j)) :=
  ⟨⟨by decide, by decide⟩,
    (C9_update_targets_regtest_only
      { initialChainParamsState with pCurrentParams := some BaseChain.MAIN }
      .UPGRADE_TESTDUMMY 100).1 ⟨by decide, by decide⟩⟩

end Ycash
